import Mathlib

/-!
Shallow embedding of the risk-managed decision engine of the crypto
trading bot (files `src/engine/risk.js`, the trading-engine orchestrator,
and `src/config/index.js`).  Machine numbers are modelled as exact
rationals; the JavaScript `NaN` that arises from `0/0` in the daily-PnL
computation is modelled as `none : Option ℚ` (every comparison against
`NaN` is false in JavaScript, matched by the `Option` pattern matches
below).
-/

/-- Configuration snapshot (`src/config/index.js`): the fields of
`config.allocation`, `config.risk`, `config.confidence` and
`config.technicals` that the decision engine reads, flattened into one
structure. -/
structure Config where
  /-- `config.allocation.satellite` -/
  satellite : ℚ
  /-- `config.risk.maxRiskPerTrade` -/
  maxRiskPerTrade : ℚ
  /-- `config.risk.maxSatelliteExposure` -/
  maxSatelliteExposure : ℚ
  /-- `config.risk.dailyLossLimit` -/
  dailyLossLimit : ℚ
  /-- `config.risk.defaultStopLoss` -/
  defaultStopLoss : ℚ
  /-- `config.risk.defaultTakeProfit` -/
  defaultTakeProfit : ℚ
  /-- `config.risk.maxTradesPerDay` -/
  maxTradesPerDay : ℕ
  /-- `config.risk.minOrderSizeUsdt` -/
  minOrderSizeUsdt : ℚ
  /-- `config.risk.minBalanceToTrade` -/
  minBalanceToTrade : ℚ
  /-- `config.confidence.minToTrade` -/
  minToTrade : ℚ
  /-- `config.confidence.highThreshold` -/
  highThreshold : ℚ
  /-- `config.technicals.rsiOversold` -/
  rsiOversold : ℚ
  deriving Repr, DecidableEq

/-- The default configuration values of `src/config/index.js` (no
environment overrides). -/
def defaultConfig : Config where
  satellite := 2/5
  maxRiskPerTrade := 1/100
  maxSatelliteExposure := 1/4
  dailyLossLimit := 1/20
  defaultStopLoss := 1/50
  defaultTakeProfit := 1/25
  maxTradesPerDay := 10
  minOrderSizeUsdt := 10
  minBalanceToTrade := 15
  minToTrade := 60
  highThreshold := 85
  rsiOversold := 30

/-- `this.dailyStats` of the `RiskManager` (`src/engine/risk.js`).
`dailyPnL = none` models the JavaScript `NaN` produced by `0/0` when
`initialBalance` is still the `0` sentinel; otherwise `some` of the
stored fraction.  The calendar date is an abstract day identifier. -/
@[ext]
structure DailyStats where
  date : ℕ
  initialBalance : ℚ
  currentBalance : ℚ
  tradesCount : ℕ
  dailyPnL : Option ℚ
  isHalted : Bool
  deriving Repr, DecidableEq

/-- The zeroed stats record installed by the constructor and by the
fresh-day reset in `loadStats` (`risk.js` lines 49-56). -/
def freshStats (today : ℕ) : DailyStats where
  date := today
  initialBalance := 0
  currentBalance := 0
  tradesCount := 0
  dailyPnL := some 0
  isHalted := false

/-- Reasons logged by `logBreaker` in `checkBreakers`. -/
inductive BreakerReason where
  | dailyLoss
  | maxTrades
  | minBalance
  deriving Repr, DecidableEq

/-- Breaker condition 1 (`risk.js` line 84):
`dailyPnL <= -config.risk.dailyLossLimit`; false when `dailyPnL` is
`NaN` (JavaScript comparison semantics). -/
def dailyLossCond (cfg : Config) (s : DailyStats) : Bool :=
  match s.dailyPnL with
  | some p => decide (p ≤ -cfg.dailyLossLimit)
  | none => false

/-- Breaker condition 2 (`risk.js` line 96):
`tradesCount >= config.risk.maxTradesPerDay`. -/
def maxTradesCond (cfg : Config) (s : DailyStats) : Bool :=
  decide (cfg.maxTradesPerDay ≤ s.tradesCount)

/-- Breaker condition 3 (`risk.js` line 107):
`currentBalance > 0 && currentBalance < config.risk.minBalanceToTrade`. -/
def minBalanceCond (cfg : Config) (s : DailyStats) : Bool :=
  decide (0 < s.currentBalance) && decide (s.currentBalance < cfg.minBalanceToTrade)

/-- `checkBreakers` (`risk.js` lines 82-117): the three conditions are
checked in sequence; each one, when it holds and the manager is not yet
halted, latches `isHalted` and emits one `logBreaker` event.  Returns
the updated stats together with the list of logged events. -/
def checkBreakers (cfg : Config) (s : DailyStats) : DailyStats × List BreakerReason :=
  let step1 : DailyStats × List BreakerReason :=
    if dailyLossCond cfg s then
      if s.isHalted then (s, []) else ({ s with isHalted := true }, [.dailyLoss])
    else (s, [])
  let step2 : DailyStats × List BreakerReason :=
    if maxTradesCond cfg step1.1 then
      if step1.1.isHalted then step1
      else ({ step1.1 with isHalted := true }, step1.2 ++ [.maxTrades])
    else step1
  if minBalanceCond cfg step2.1 then
    if step2.1.isHalted then step2
    else ({ step2.1 with isHalted := true }, step2.2 ++ [.minBalance])
  else step2

/-- The field assignments of `updateBalance` (`risk.js` lines 68-73)
before `checkBreakers` runs: set `initialBalance` on first observation
(the `0` sentinel means unset), record `currentBalance`, recompute
`dailyPnL = totalValue / initialBalance - 1` (`NaN`, i.e. `none`, when
`initialBalance` is still `0`). -/
def updateFields (s : DailyStats) (totalValue : ℚ) : DailyStats :=
  let ib := if s.initialBalance = 0 then totalValue else s.initialBalance
  { s with
    initialBalance := ib
    currentBalance := totalValue
    dailyPnL := if ib = 0 then none else some (totalValue / ib - 1) }

/-- `updateBalance(totalValue)` (`risk.js` lines 68-77): field updates
followed by breaker evaluation (the `saveStats` persistence write does
not change the in-memory record). -/
def updateBalance (cfg : Config) (s : DailyStats) (totalValue : ℚ) : DailyStats :=
  (checkBreakers cfg (updateFields s totalValue)).1

/-- `recordTrade()` (`risk.js` lines 206-210): increment `tradesCount`,
then breaker evaluation, then persistence. -/
def recordTrade (cfg : Config) (s : DailyStats) : DailyStats :=
  (checkBreakers cfg { s with tradesCount := s.tradesCount + 1 }).1

/-- `canTrade()` (`risk.js` lines 212-214). -/
def canTrade (s : DailyStats) : Bool :=
  !s.isHalted

/-- `resetBreaker()` (`risk.js` lines 216-219). -/
def resetBreaker (s : DailyStats) : DailyStats :=
  { s with isHalted := false }

/-- `loadStats()` (`risk.js` lines 36-58): if a persisted record exists
and carries today's date it is adopted unchanged; otherwise the stats
reset to the zeroed fresh-day record for today. -/
def loadStats (today : ℕ) (saved : Option DailyStats) : DailyStats :=
  match saved with
  | some st => if st.date = today then st else freshStats today
  | none => freshStats today

/-- The minimum-order floor that appears twice in `calculatePositionSize`
(`risk.js` lines 146-154 and 167-175): a trade value below
`minOrderSizeUsdt` is bumped to `minOrderSizeUsdt` when the satellite
bucket can cover that minimum, and otherwise the function returns 0
(modelled as `none`). -/
def minOrderFloor (cfg : Config) (satelliteCapital tv : ℚ) : Option ℚ :=
  if tv < cfg.minOrderSizeUsdt then
    if cfg.minOrderSizeUsdt ≤ satelliteCapital then some cfg.minOrderSizeUsdt else none
  else some tv

/-- `calculatePositionSize(totalCapital, confidenceScore)` (`risk.js`
lines 122-178): halt / confidence gates, confidence-tiered risk factor,
minimum-order floor, satellite exposure cap, and the repeated floor
check after the cap. -/
def calculatePositionSize (cfg : Config) (s : DailyStats) (totalCapital confidenceScore : ℚ) : ℚ :=
  if s.isHalted then 0
  else if confidenceScore < cfg.minToTrade then 0
  else
    let satelliteCapital := totalCapital * cfg.satellite
    let riskFactor :=
      if cfg.highThreshold ≤ confidenceScore then cfg.maxRiskPerTrade * 2
      else if 75 ≤ confidenceScore then cfg.maxRiskPerTrade * (3/2)
      else cfg.maxRiskPerTrade
    let tradeValue := totalCapital * riskFactor
    match minOrderFloor cfg satelliteCapital tradeValue with
    | none => 0
    | some tv1 =>
      let maxSatelliteTrade := max (satelliteCapital * cfg.maxSatelliteExposure) cfg.minOrderSizeUsdt
      let tv2 := if maxSatelliteTrade < tv1 then maxSatelliteTrade else tv1
      match minOrderFloor cfg satelliteCapital tv2 with
      | none => 0
      | some tv3 => tv3

/-- The position-sizing pipeline exactly as the specification words it
(spec §4.1 steps 1-7), to be compared with `calculatePositionSize`:
return 0 when halted or under-confident; `tradeValue = totalCapital ×
maxRiskPerTrade` scaled ×2 / ×1.5 / ×1 by confidence tier; the
floor/bump-or-0 rule; clamp down to
`max(satelliteCapital × maxSatelliteExposure, minOrderSizeUsdt)`; the
floor rule re-applied after clamping. -/
def positionSizeClaim (cfg : Config) (halted : Bool) (totalCapital confidenceScore : ℚ) : ℚ :=
  if halted = true ∨ confidenceScore < cfg.minToTrade then 0
  else
    let scale : ℚ :=
      if cfg.highThreshold ≤ confidenceScore then 2
      else if 75 ≤ confidenceScore then 3/2
      else 1
    let satelliteCapital := totalCapital * cfg.satellite
    match minOrderFloor cfg satelliteCapital (totalCapital * cfg.maxRiskPerTrade * scale) with
    | none => 0
    | some tv1 =>
      match minOrderFloor cfg satelliteCapital
          (min tv1 (max (satelliteCapital * cfg.maxSatelliteExposure) cfg.minOrderSizeUsdt)) with
      | none => 0
      | some tv3 => tv3

/-- `getExitPoints(entryPrice, side = 'BUY', targetGain = null)`
(`risk.js` lines 183-204), returning `(stopLoss, takeProfit)`.  The
JavaScript guard `targetGain && typeof targetGain === 'number'` treats a
supplied target gain of `0` as absent (falsy), hence the `g = 0` case
falls back to the default take-profit. -/
def getExitPoints (cfg : Config) (entryPrice : ℚ) (side : String) (targetGain : Option ℚ) : ℚ × ℚ :=
  let slPercent := cfg.defaultStopLoss
  let tpPercent :=
    match targetGain with
    | some g => if g = 0 then cfg.defaultTakeProfit else min (max (g / 100) (2/100)) (15/100)
    | none => cfg.defaultTakeProfit
  if side = "BUY" then
    (entryPrice * (1 - slPercent), entryPrice * (1 + tpPercent))
  else
    (entryPrice * (1 + slPercent), entryPrice * (1 - tpPercent))

/-- Order types relevant to the trailing-stop pass of the trading
engine (`STOP_LOSS_LIMIT`, `STOP_LOSS`, `LIMIT_MAKER`, anything
else). -/
inductive OrderKind where
  | stopLossLimit
  | stopLoss
  | limitMaker
  | otherKind
  deriving Repr, DecidableEq

/-- An open exchange order as read by `manageTrailingStops`: symbol,
order type, `stopPrice`, limit `price`, and original quantity. -/
structure ExchangeOrder where
  symbol : String
  kind : OrderKind
  stopPrice : ℚ
  price : ℚ
  origQty : ℚ
  deriving Repr, DecidableEq

/-- The filter `o.type === 'STOP_LOSS_LIMIT' || o.type === 'STOP_LOSS'`
selecting protective stop orders. -/
def isStopOrder (o : ExchangeOrder) : Bool :=
  o.kind == .stopLossLimit || o.kind == .stopLoss

/-- The take-profit level used for the replacement pair:
`openOrders.find(o => o.symbol === sym && o.type === 'LIMIT_MAKER')?.price
|| currentPrice * 1.04` — the price of the symbol's open `LIMIT_MAKER`
order when present and truthy, else 4% above the current price. -/
def tpLookup (orders : List ExchangeOrder) (sym : String) (currentPrice : ℚ) : ℚ :=
  match orders.find? (fun o => o.symbol == sym && o.kind == .limitMaker) with
  | some o => if o.price = 0 then currentPrice * (104/100) else o.price
  | none => currentPrice * (104/100)

/-- The replacement OCO pair submitted by `binance.ocoSell(symbol,
origQty, takeProfit, newStopPrice)`. -/
structure ProtectivePair where
  symbol : String
  qty : ℚ
  takeProfit : ℚ
  stopPrice : ℚ
  deriving Repr, DecidableEq

/-- The per-order body of the trailing-stop loop: if the current price
exceeds `stopPrice * 1.02`, the order pair is replaced by a new one at
stop `stopPrice * 1.01` and the looked-up take-profit level; otherwise
nothing happens for this order. -/
def trailOrder (orders : List ExchangeOrder) (price : String → ℚ) (o : ExchangeOrder) : Option ProtectivePair :=
  let currentPrice := price o.symbol
  if o.stopPrice * (102/100) < currentPrice then
    some ⟨o.symbol, o.origQty, tpLookup orders o.symbol currentPrice, o.stopPrice * (101/100)⟩
  else none

/-- `manageTrailingStops()` of the trading engine: filter the open
orders down to protective stop orders and process each independently,
collecting the replacement pairs that get submitted. -/
def manageTrailingStops (orders : List ExchangeOrder) (price : String → ℚ) : List ProtectivePair :=
  (orders.filter isStopOrder).filterMap (trailOrder orders price)

/-- The structured verdict returned by the sentiment collaborator
(`analyzeNews`): fields of the parsed JSON that the engine reads. -/
structure Analysis where
  verdict : String
  suggested_action : String
  confidence : ℚ
  target_gain : Option ℚ
  deriving Repr, DecidableEq

/-- The execution test of the news loop in `processPair`:
`analysis.suggested_action === 'BUY' && analysis.verdict === 'BULLISH'
&& analysis.confidence > 80`. -/
def isExecutableSignal (a : Analysis) : Bool :=
  a.suggested_action == "BUY" && a.verdict == "BULLISH" && decide ((80 : ℚ) < a.confidence)

/-- The news loop of `processPair`: analyses arrive one per news item
(`none` models a null/failed analysis); the first analysis passing
`isExecutableSignal` is handed to `executeSatelliteTrade` and the loop
breaks; if none passes, no trade is initiated for the pair. -/
def scanPairNews : List (Option Analysis) → Option Analysis
  | [] => none
  | none :: rest => scanPairNews rest
  | some a :: rest => if isExecutableSignal a then some a else scanPairNews rest

/-- One OHLC candle as used by `processPair` (only `high`, `low`,
`close` are read). -/
structure Candle where
  high : ℚ
  low : ℚ
  close : ℚ
  deriving Repr, DecidableEq

/-- `Math.max(...candles.map(c => c.high))` over a candle window. -/
def maxHigh : List Candle → ℚ
  | [] => 0
  | c :: cs => cs.foldl (fun m x => max m x.high) c.high

/-- `Math.min(...candles.map(c => c.low))` over a candle window. -/
def minLow : List Candle → ℚ
  | [] => 0
  | c :: cs => cs.foldl (fun m x => min m x.low) c.low

/-- `candles.slice(-3)`: the last three candles (the whole list when it
is shorter). -/
def lastThree (candles : List Candle) : List Candle :=
  candles.drop (candles.length - 3)

/-- The volatility ratio of `processPair`: `high / low - 1` with `high`
the maximum high and `low` the minimum low of the last three short-frame
candles. -/
def volatility3 (candles : List Candle) : ℚ :=
  maxHigh (lastThree candles) / minLow (lastThree candles) - 1

/-- The technical pre-screen of `processPair`, parameterised by the two
RSI values the external `technicalindicators` library computes from the
1h and 4h candle closes: veto when the 4h RSI exceeds 65; veto when the
three-candle volatility ratio exceeds 0.05; otherwise pass exactly when
the 1h RSI is below `rsiOversold` or strictly inside the momentum band
(45, 60). -/
def technicalGate (cfg : Config) (rsi1h rsi4h : ℚ) (candles1h : List Candle) : Bool :=
  if 65 < rsi4h then false
  else
    let isOversold := decide (rsi1h < cfg.rsiOversold)
    let isMomentumUp := decide (45 < rsi1h) && decide (rsi1h < 60)
    if 5/100 < volatility3 candles1h then false
    else isOversold || isMomentumUp

/-- `processPair` for one pair in one scan cycle: the first component
records whether the sentiment gate (news fetch and per-item analysis)
was invoked at all; the second is the at-most-one executable verdict the
news loop settles on. -/
def processPair (cfg : Config) (rsi1h rsi4h : ℚ) (candles1h : List Candle)
    (analyses : List (Option Analysis)) : Bool × Option Analysis :=
  if technicalGate cfg rsi1h rsi4h candles1h then (true, scanPairNews analyses)
  else (false, none)

/-- The `RiskManager` calls that can occur between two points in time.
`calcPos`, `exits` and `queryCanTrade` model `calculatePositionSize`,
`getExitPoints` and `canTrade`, none of which assigns to
`this.dailyStats` in the source, so they leave the state unchanged. -/
inductive EngineOp where
  | updateBal (v : ℚ)
  | recordTr
  | calcPos (tc conf : ℚ)
  | exits (e : ℚ) (side : String) (g : Option ℚ)
  | queryCanTrade

/-- State transition of one `RiskManager` call. -/
def engineStep (cfg : Config) (s : DailyStats) : EngineOp → DailyStats
  | .updateBal v => updateBalance cfg s v
  | .recordTr => recordTrade cfg s
  | .calcPos _ _ => s
  | .exits _ _ _ => s
  | .queryCanTrade => s

theorem dailyLossCond_setHalted (cfg : Config) (s : DailyStats) (b : Bool) :
    dailyLossCond cfg { s with isHalted := b } = dailyLossCond cfg s := rfl

theorem maxTradesCond_setHalted (cfg : Config) (s : DailyStats) (b : Bool) :
    maxTradesCond cfg { s with isHalted := b } = maxTradesCond cfg s := rfl

theorem minBalanceCond_setHalted (cfg : Config) (s : DailyStats) (b : Bool) :
    minBalanceCond cfg { s with isHalted := b } = minBalanceCond cfg s := rfl

theorem checkBreakers_isHalted (cfg : Config) (s : DailyStats) :
    (checkBreakers cfg s).1.isHalted
      = (s.isHalted || dailyLossCond cfg s || maxTradesCond cfg s || minBalanceCond cfg s) := by
  unfold checkBreakers
  cases hH : s.isHalted <;> cases h1 : dailyLossCond cfg s <;>
    cases h2 : maxTradesCond cfg s <;> cases h3 : minBalanceCond cfg s <;>
      simp [hH, h1, h2, h3, dailyLossCond_setHalted, maxTradesCond_setHalted, minBalanceCond_setHalted]

theorem checkBreakers_date (cfg : Config) (s : DailyStats) :
    (checkBreakers cfg s).1.date = s.date := by
  unfold checkBreakers
  cases hH : s.isHalted <;> cases h1 : dailyLossCond cfg s <;>
    cases h2 : maxTradesCond cfg s <;> cases h3 : minBalanceCond cfg s <;>
      simp [hH, h1, h2, h3, dailyLossCond_setHalted, maxTradesCond_setHalted, minBalanceCond_setHalted]

theorem checkBreakers_initialBalance (cfg : Config) (s : DailyStats) :
    (checkBreakers cfg s).1.initialBalance = s.initialBalance := by
  unfold checkBreakers
  cases hH : s.isHalted <;> cases h1 : dailyLossCond cfg s <;>
    cases h2 : maxTradesCond cfg s <;> cases h3 : minBalanceCond cfg s <;>
      simp [hH, h1, h2, h3, dailyLossCond_setHalted, maxTradesCond_setHalted, minBalanceCond_setHalted]

theorem checkBreakers_currentBalance (cfg : Config) (s : DailyStats) :
    (checkBreakers cfg s).1.currentBalance = s.currentBalance := by
  unfold checkBreakers
  cases hH : s.isHalted <;> cases h1 : dailyLossCond cfg s <;>
    cases h2 : maxTradesCond cfg s <;> cases h3 : minBalanceCond cfg s <;>
      simp [hH, h1, h2, h3, dailyLossCond_setHalted, maxTradesCond_setHalted, minBalanceCond_setHalted]

theorem checkBreakers_tradesCount (cfg : Config) (s : DailyStats) :
    (checkBreakers cfg s).1.tradesCount = s.tradesCount := by
  unfold checkBreakers
  cases hH : s.isHalted <;> cases h1 : dailyLossCond cfg s <;>
    cases h2 : maxTradesCond cfg s <;> cases h3 : minBalanceCond cfg s <;>
      simp [hH, h1, h2, h3, dailyLossCond_setHalted, maxTradesCond_setHalted, minBalanceCond_setHalted]

theorem checkBreakers_dailyPnL (cfg : Config) (s : DailyStats) :
    (checkBreakers cfg s).1.dailyPnL = s.dailyPnL := by
  unfold checkBreakers
  cases hH : s.isHalted <;> cases h1 : dailyLossCond cfg s <;>
    cases h2 : maxTradesCond cfg s <;> cases h3 : minBalanceCond cfg s <;>
      simp [hH, h1, h2, h3, dailyLossCond_setHalted, maxTradesCond_setHalted, minBalanceCond_setHalted]

theorem checkBreakers_events_halted (cfg : Config) (s : DailyStats) (h : s.isHalted = true) :
    (checkBreakers cfg s).2 = [] := by
  unfold checkBreakers
  cases h1 : dailyLossCond cfg s <;>
    cases h2 : maxTradesCond cfg s <;> cases h3 : minBalanceCond cfg s <;>
      simp [h, h1, h2, h3, dailyLossCond_setHalted, maxTradesCond_setHalted, minBalanceCond_setHalted]

theorem checkBreakers_events_iff (cfg : Config) (s : DailyStats) (h : s.isHalted = false) :
    ((checkBreakers cfg s).2 ≠ [] ↔
      (dailyLossCond cfg s || maxTradesCond cfg s || minBalanceCond cfg s) = true) := by
  unfold checkBreakers
  cases h1 : dailyLossCond cfg s <;>
    cases h2 : maxTradesCond cfg s <;> cases h3 : minBalanceCond cfg s <;>
      simp [h, h1, h2, h3, dailyLossCond_setHalted, maxTradesCond_setHalted, minBalanceCond_setHalted]

theorem updateFields_isHalted (s : DailyStats) (v : ℚ) :
    (updateFields s v).isHalted = s.isHalted := rfl

/-- C2: after every `updateBalance` call and every `recordTrade` call,
breaker evaluation runs and transitions Active to Halted exactly when at
least one of the three conditions holds on the just-updated stats; a
breaker event is logged only on the Active-to-Halted transition, never
on a re-check while already halted; with `initialBalance = 1000` and the
default 5% daily loss limit, `updateBalance(940)` makes `canTrade()`
false. -/
theorem C2_breakers_on_update_and_record (cfg : Config) (s : DailyStats) (v : ℚ) :
    ((updateBalance cfg s v).isHalted
      = (s.isHalted || dailyLossCond cfg (updateFields s v) || maxTradesCond cfg (updateFields s v)
          || minBalanceCond cfg (updateFields s v)))
    ∧ ((recordTrade cfg s).isHalted
      = (s.isHalted || dailyLossCond cfg { s with tradesCount := s.tradesCount + 1 }
          || maxTradesCond cfg { s with tradesCount := s.tradesCount + 1 }
          || minBalanceCond cfg { s with tradesCount := s.tradesCount + 1 }))
    ∧ (s.isHalted = true → (checkBreakers cfg s).2 = [])
    ∧ (s.isHalted = false →
        (((checkBreakers cfg s).1.isHalted = true)
          ↔ (dailyLossCond cfg s || maxTradesCond cfg s || minBalanceCond cfg s) = true))
    ∧ (s.isHalted = false →
        ((checkBreakers cfg s).2 ≠ [] ↔ (checkBreakers cfg s).1.isHalted = true))
    ∧ canTrade (updateBalance defaultConfig (updateBalance defaultConfig (freshStats 0) 1000) 940) = false := by
  refine ⟨?_, ?_, checkBreakers_events_halted cfg s, ?_, ?_, ?_⟩
  · rw [updateBalance, checkBreakers_isHalted, updateFields_isHalted]
  · rw [recordTrade, checkBreakers_isHalted]
  · intro h
    rw [checkBreakers_isHalted, h]
    simp
  · intro h
    rw [checkBreakers_events_iff cfg s h, checkBreakers_isHalted, h]
    simp
  · norm_num [canTrade, updateBalance, checkBreakers, updateFields, dailyLossCond,
      maxTradesCond, minBalanceCond, freshStats, defaultConfig]

theorem C2_witness :
    ((updateBalance defaultConfig (freshStats 0) 1000).isHalted
      = ((freshStats 0).isHalted
          || dailyLossCond defaultConfig (updateFields (freshStats 0) 1000)
          || maxTradesCond defaultConfig (updateFields (freshStats 0) 1000)
          || minBalanceCond defaultConfig (updateFields (freshStats 0) 1000)))
    ∧ (checkBreakers defaultConfig ⟨0, 1000, 1000, 0, some 0, true⟩).2 = []
    ∧ (((checkBreakers defaultConfig (freshStats 0)).1.isHalted = true)
        ↔ (dailyLossCond defaultConfig (freshStats 0) || maxTradesCond defaultConfig (freshStats 0)
            || minBalanceCond defaultConfig (freshStats 0)) = true)
    ∧ canTrade (updateBalance defaultConfig (updateBalance defaultConfig (freshStats 0) 1000) 940) = false := by
  refine ⟨(C2_breakers_on_update_and_record defaultConfig (freshStats 0) 1000).1, ?_, ?_, ?_⟩
  · exact (C2_breakers_on_update_and_record defaultConfig ⟨0, 1000, 1000, 0, some 0, true⟩ 0).2.2.1 rfl
  · exact (C2_breakers_on_update_and_record defaultConfig (freshStats 0) 0).2.2.2.1 rfl
  · exact (C2_breakers_on_update_and_record defaultConfig (freshStats 0) 0).2.2.2.2.2

theorem engineStep_halted (cfg : Config) (s : DailyStats) (op : EngineOp)
    (h : s.isHalted = true) :
    (engineStep cfg s op).isHalted = true := by
  cases op <;>
    simp [engineStep, updateBalance, recordTrade, checkBreakers_isHalted, updateFields_isHalted, h]

theorem foldl_engineStep_halted (cfg : Config) (ops : List EngineOp) (s : DailyStats)
    (h : s.isHalted = true) :
    (ops.foldl (engineStep cfg) s).isHalted = true := by
  induction ops generalizing s with
  | nil => exact h
  | cons op rest ih => exact ih _ (engineStep_halted cfg s op h)

theorem recordTrade_iterate_fresh (cfg : Config) (d : ℕ) (n : ℕ)
    (hmax : 1 ≤ cfg.maxTradesPerDay) (hdll : 0 < cfg.dailyLossLimit) :
    Nat.iterate (recordTrade cfg) n (freshStats d)
      = ⟨d, 0, 0, n, some 0, decide (cfg.maxTradesPerDay ≤ n)⟩ := by
  induction n with
  | zero =>
    have hne : ¬ cfg.maxTradesPerDay ≤ 0 := by omega
    simp [freshStats, Function.iterate_zero, hne]
  | succ n ih =>
    rw [Function.iterate_succ_apply', ih]
    have hpnl : ∀ b : Bool, dailyLossCond cfg
        (⟨d, 0, 0, n + 1, some 0, b⟩ : DailyStats) = false := by
      intro b
      simp [dailyLossCond]
      linarith
    ext
    · rw [recordTrade, checkBreakers_date]
    · rw [recordTrade, checkBreakers_initialBalance]
    · rw [recordTrade, checkBreakers_currentBalance]
    · rw [recordTrade, checkBreakers_tradesCount]
    · rw [recordTrade, checkBreakers_dailyPnL]
    · rw [recordTrade, checkBreakers_isHalted]
      by_cases hle : cfg.maxTradesPerDay ≤ n
      · have hle' : cfg.maxTradesPerDay ≤ n + 1 := by omega
        simp [hle, hle', hpnl, maxTradesCond, minBalanceCond]
      · by_cases hle' : cfg.maxTradesPerDay ≤ n + 1 <;>
          simp [hle, hle', hpnl, maxTradesCond, minBalanceCond]

/-- C3: the halt flag is a latch: once `isHalted` is true no sequence of
`updateBalance`, `recordTrade`, `calculatePositionSize`, `getExitPoints`
or `canTrade` calls makes it false again; from a fresh day, calling
`recordTrade()` `maxTradesPerDay` times makes `canTrade()` false and
further calls leave the halted state unchanged; `resetBreaker()`
restores `canTrade()` and is idempotent. -/
theorem C3_halt_latch (cfg : Config) (s : DailyStats) (ops : List EngineOp) (d : ℕ)
    (h : s.isHalted = true) :
    ((ops.foldl (engineStep cfg) s).isHalted = true)
    ∧ (1 ≤ cfg.maxTradesPerDay → 0 < cfg.dailyLossLimit →
        canTrade (Nat.iterate (recordTrade cfg) cfg.maxTradesPerDay (freshStats d)) = false)
    ∧ (recordTrade cfg s).isHalted = true
    ∧ canTrade (resetBreaker s) = true
    ∧ resetBreaker (resetBreaker s) = resetBreaker s := by
  refine ⟨foldl_engineStep_halted cfg ops s h, ?_, engineStep_halted cfg s .recordTr h, rfl, rfl⟩
  intro hmax hdll
  rw [recordTrade_iterate_fresh cfg d cfg.maxTradesPerDay hmax hdll]
  simp [canTrade]

theorem C3_witness :
    ((([EngineOp.updateBal 500, EngineOp.calcPos 500 90, EngineOp.recordTr]).foldl
        (engineStep defaultConfig) ⟨0, 1000, 900, 2, some 0, true⟩).isHalted = true)
    ∧ canTrade (Nat.iterate (recordTrade defaultConfig) defaultConfig.maxTradesPerDay
        (freshStats 0)) = false
    ∧ canTrade (resetBreaker ⟨0, 1000, 900, 2, some 0, true⟩) = true := by
  have h := C3_halt_latch defaultConfig ⟨0, 1000, 900, 2, some 0, true⟩
    [EngineOp.updateBal 500, EngineOp.calcPos 500 90, EngineOp.recordTr] 0 rfl
  exact ⟨h.1, h.2.1 (by norm_num [defaultConfig]) (by norm_num [defaultConfig]), h.2.2.2.1⟩

/-- C5 counterexample: the claim says `initialBalance` is fixed by the
first `updateBalance` call of the day and left unchanged by every later
call, but with a first observed `totalValue` of `0` (the unset
sentinel) the second call re-sets it: after `updateBalance(0)` then
`updateBalance(50)` from a fresh day, `initialBalance` is `50`, not the
first observed value `0`. -/
theorem C5_counterexample :
    (updateBalance defaultConfig (freshStats 0) 0).initialBalance = 0
    ∧ (updateBalance defaultConfig (updateBalance defaultConfig (freshStats 0) 0) 50).initialBalance = 50
    ∧ (50 : ℚ) ≠ 0 := by
  norm_num [updateBalance, checkBreakers, updateFields, dailyLossCond,
    maxTradesCond, minBalanceCond, freshStats, defaultConfig]

/-- C5 (amended): `initialBalance` is set by the first `updateBalance`
call of the day observing a nonzero `totalValue` (`0` is the unset
sentinel and is re-set by later calls); once nonzero it never changes,
while every call sets `currentBalance` to the new value and recomputes
`dailyPnL = currentBalance / initialBalance - 1`; `updateBalance` is
total on numeric input. -/
theorem C5_initialBalance_once (cfg : Config) (s : DailyStats) (v w : ℚ) (d : ℕ)
    (h : s.initialBalance ≠ 0) (hw : w ≠ 0) :
    ((updateBalance cfg s v).initialBalance = s.initialBalance)
    ∧ ((updateBalance cfg s v).currentBalance = v)
    ∧ ((updateBalance cfg s v).dailyPnL = some (v / s.initialBalance - 1))
    ∧ ((updateBalance cfg (freshStats d) w).initialBalance = w)
    ∧ ((updateBalance cfg (freshStats d) w).currentBalance = w)
    ∧ ((updateBalance cfg (freshStats d) w).dailyPnL = some (w / w - 1)) := by
  refine ⟨?_, ?_, ?_, ?_, ?_, ?_⟩
  · rw [updateBalance, checkBreakers_initialBalance, updateFields]
    simp [h]
  · rw [updateBalance, checkBreakers_currentBalance, updateFields]
  · rw [updateBalance, checkBreakers_dailyPnL, updateFields]
    simp [h]
  · rw [updateBalance, checkBreakers_initialBalance, updateFields]
    simp [freshStats, hw]
  · rw [updateBalance, checkBreakers_currentBalance, updateFields]
  · rw [updateBalance, checkBreakers_dailyPnL, updateFields]
    simp [freshStats, hw]

theorem C5_witness :
    ((updateBalance defaultConfig ⟨0, 1000, 1000, 0, some 0, false⟩ 940).initialBalance = 1000)
    ∧ ((updateBalance defaultConfig ⟨0, 1000, 1000, 0, some 0, false⟩ 940).currentBalance = 940)
    ∧ ((updateBalance defaultConfig (freshStats 0) 1000).initialBalance = 1000) := by
  have h := C5_initialBalance_once defaultConfig ⟨0, 1000, 1000, 0, some 0, false⟩ 940 1000 0
    (by norm_num) (by norm_num)
  exact ⟨h.1, h.2.1, h.2.2.2.1⟩

/-- C9: persistence round-trip: a saved `DailyStats` record reloaded on
the same calendar day is returned identically (all six fields); a saved
record with a stale date instead resets to the zeroed defaults for the
new date before any cycle runs. -/
theorem C9_load_roundtrip (today : ℕ) (s : DailyStats) :
    (s.date = today → loadStats today (some s) = s)
    ∧ (s.date ≠ today →
        loadStats today (some s)
          = (⟨today, 0, 0, 0, some 0, false⟩ : DailyStats)) := by
  constructor <;> intro h <;> simp [loadStats, freshStats, h]

theorem C9_witness :
    loadStats 5 (some ⟨5, 1000, 940, 3, some (-(3/50)), true⟩)
        = (⟨5, 1000, 940, 3, some (-(3/50)), true⟩ : DailyStats)
    ∧ loadStats 6 (some ⟨5, 1000, 940, 3, some (-(3/50)), true⟩)
        = (⟨6, 0, 0, 0, some 0, false⟩ : DailyStats) := by
  exact ⟨(C9_load_roundtrip 5 ⟨5, 1000, 940, 3, some (-(3/50)), true⟩).1 rfl,
    (C9_load_roundtrip 6 ⟨5, 1000, 940, 3, some (-(3/50)), true⟩).2 (by decide)⟩

theorem ite_lt_min (a b : ℚ) : (if b < a then b else a) = min a b := by
  rcases le_or_lt a b with h | h
  · rw [if_neg (not_lt.mpr h), min_eq_left h]
  · rw [if_pos h, min_eq_right h.le]

theorem calculatePositionSize_eq_claim (cfg : Config) (s : DailyStats) (tc conf : ℚ) :
    calculatePositionSize cfg s tc conf = positionSizeClaim cfg s.isHalted tc conf := by
  cases hH : s.isHalted
  · by_cases hc : conf < cfg.minToTrade
    · simp [calculatePositionSize, positionSizeClaim, hH, hc]
    · simp only [calculatePositionSize, positionSizeClaim, hH, hc, if_false,
        Bool.false_eq_true, false_or, ite_false]
      have harg : tc * (if cfg.highThreshold ≤ conf then cfg.maxRiskPerTrade * 2
            else if (75 : ℚ) ≤ conf then cfg.maxRiskPerTrade * (3/2) else cfg.maxRiskPerTrade)
          = tc * cfg.maxRiskPerTrade *
            (if cfg.highThreshold ≤ conf then 2 else if (75 : ℚ) ≤ conf then 3/2 else 1) := by
        split_ifs <;> ring
      rw [harg]
      simp only [ite_lt_min]
  · simp [calculatePositionSize, positionSizeClaim, hH]

theorem minOrderFloor_some (cfg : Config) (satCap tv tv1 : ℚ)
    (h : minOrderFloor cfg satCap tv = some tv1) :
    cfg.minOrderSizeUsdt ≤ tv1 ∧ tv1 ≤ max tv cfg.minOrderSizeUsdt := by
  unfold minOrderFloor at h
  split_ifs at h with ha hb
  · obtain rfl : cfg.minOrderSizeUsdt = tv1 := by simpa using h
    exact ⟨le_refl _, le_max_right _ _⟩
  · obtain rfl : tv = tv1 := by simpa using h
    exact ⟨not_lt.mp ha, le_max_left _ _⟩

theorem C10_bounds (cfg : Config) (s : DailyStats) (tc conf : ℚ)
    (h1 : 0 < cfg.minOrderSizeUsdt) (h2 : 0 < cfg.satellite)
    (h3 : 0 < cfg.maxSatelliteExposure) (h4 : 0 < cfg.maxRiskPerTrade) (h5 : 0 ≤ tc) :
    calculatePositionSize cfg s tc conf = 0
    ∨ (cfg.minOrderSizeUsdt ≤ calculatePositionSize cfg s tc conf
        ∧ calculatePositionSize cfg s tc conf
            ≤ max (tc * cfg.satellite * cfg.maxSatelliteExposure) cfg.minOrderSizeUsdt) := by
  cases hH : s.isHalted
  · by_cases hc : conf < cfg.minToTrade
    · left
      simp [calculatePositionSize, hH, hc]
    · simp only [calculatePositionSize, hH, hc, Bool.false_eq_true, if_false, ite_false]
      rcases hm1 : minOrderFloor cfg (tc * cfg.satellite)
          (tc * (if cfg.highThreshold ≤ conf then cfg.maxRiskPerTrade * 2
            else if (75 : ℚ) ≤ conf then cfg.maxRiskPerTrade * (3/2)
            else cfg.maxRiskPerTrade)) with _ | tv1
      · left
        simp only [hm1]
      · rcases hm2 : minOrderFloor cfg (tc * cfg.satellite)
            (if max (tc * cfg.satellite * cfg.maxSatelliteExposure) cfg.minOrderSizeUsdt < tv1 then
              max (tc * cfg.satellite * cfg.maxSatelliteExposure) cfg.minOrderSizeUsdt
            else tv1) with _ | tv3
        · left
          simp only [hm1, hm2]
        · right
          have hb := minOrderFloor_some cfg _ _ _ hm2
          simp only [hm1, hm2]
          refine ⟨hb.1, hb.2.trans (max_le ?_ (le_max_right _ _))⟩
          split_ifs with hcap
          · exact le_refl _
          · exact not_lt.mp hcap
  · left
    simp [calculatePositionSize, hH]

/-- C1: `calculatePositionSize` is the deterministic sizing function the
specification describes: 0 when halted or when the confidence is below
`minToTrade`; otherwise the pipeline `totalCapital × maxRiskPerTrade`
scaled by confidence tier, the minimum-order floor/bump-or-0 rule, the
satellite exposure cap, and the floor rule re-applied after the cap
(`positionSizeClaim` states that pipeline in the specification's words);
with the default configuration (`maxRiskPerTrade = 0.01`),
`calculatePositionSize(1000, 65) = 10` and
`calculatePositionSize(1000, 90) = 20`. -/
theorem C1_position_sizing (cfg : Config) (s : DailyStats) (tc conf : ℚ) :
    (s.isHalted = true → calculatePositionSize cfg s tc conf = 0)
    ∧ (conf < cfg.minToTrade → calculatePositionSize cfg s tc conf = 0)
    ∧ calculatePositionSize cfg s tc conf = positionSizeClaim cfg s.isHalted tc conf
    ∧ calculatePositionSize defaultConfig (freshStats 0) 1000 65 = 10
    ∧ calculatePositionSize defaultConfig (freshStats 0) 1000 90 = 20 := by
  refine ⟨?_, ?_, calculatePositionSize_eq_claim cfg s tc conf, ?_, ?_⟩
  · intro h
    simp [calculatePositionSize, h]
  · intro h
    simp [calculatePositionSize, h]
  · norm_num [calculatePositionSize, minOrderFloor, defaultConfig, freshStats]
  · norm_num [calculatePositionSize, minOrderFloor, defaultConfig, freshStats]

theorem C1_witness :
    calculatePositionSize defaultConfig ⟨0, 1000, 1000, 0, some 0, true⟩ 1000 90 = 0
    ∧ calculatePositionSize defaultConfig (freshStats 0) 1000 50 = 0
    ∧ calculatePositionSize defaultConfig (freshStats 0) 1000 65 = 10 := by
  refine ⟨(C1_position_sizing defaultConfig ⟨0, 1000, 1000, 0, some 0, true⟩ 1000 90).1 rfl,
    (C1_position_sizing defaultConfig (freshStats 0) 1000 50).2.1 (by norm_num [defaultConfig]),
    (C1_position_sizing defaultConfig (freshStats 0) 1000 65).2.2.2.1⟩

theorem C10_witness :
    calculatePositionSize defaultConfig (freshStats 0) 1000 90 = 0
    ∨ (defaultConfig.minOrderSizeUsdt ≤ calculatePositionSize defaultConfig (freshStats 0) 1000 90
        ∧ calculatePositionSize defaultConfig (freshStats 0) 1000 90
            ≤ max (1000 * defaultConfig.satellite * defaultConfig.maxSatelliteExposure)
                defaultConfig.minOrderSizeUsdt) :=
  C10_bounds defaultConfig (freshStats 0) 1000 90 (by norm_num [defaultConfig])
    (by norm_num [defaultConfig]) (by norm_num [defaultConfig]) (by norm_num [defaultConfig])
    (by norm_num)

/-- C4 counterexample: the claim says a supplied target gain is always
applied as `targetGain/100` clamped to `[0.02, 0.15]`, but the
JavaScript guard `targetGain && typeof targetGain === 'number'` treats a
supplied target gain of `0` as absent, so `getExitPoints(100, 'BUY', 0)`
returns the default take-profit `104`, not `100 × (1 + clamp(0)) =
102`. -/
theorem C4_counterexample :
    getExitPoints defaultConfig 100 "BUY" (some 0) = (98, 104)
    ∧ (104 : ℚ) ≠ 100 * (1 + min (max ((0 : ℚ) / 100) (2/100)) (15/100)) := by
  constructor
  · norm_num [getExitPoints, defaultConfig]
  · norm_num

/-- C4 (amended): for every entry price and side, the stop-loss is
`entry × (1 - defaultStopLoss)` for BUY and `entry × (1 + defaultStopLoss)`
for any other side, independent of any supplied target gain; the
take-profit uses `defaultTakeProfit` unless a nonzero target gain is
provided (a supplied target gain of 0 is treated as absent), in which
case the applied fraction is the target gain divided by 100 clamped to
`[0.02, 0.15]`, above entry for BUY and below otherwise;
`getExitPoints(100,'BUY') = (98, 104)` and
`getExitPoints(100,'BUY',10) = (98, 110)` exactly. -/
theorem C4_exit_points (cfg : Config) (e : ℚ) (side : String) (tg : Option ℚ) (g : ℚ)
    (hside : side ≠ "BUY") (hg : g ≠ 0) :
    ((getExitPoints cfg e "BUY" tg).1 = e * (1 - cfg.defaultStopLoss))
    ∧ ((getExitPoints cfg e side tg).1 = e * (1 + cfg.defaultStopLoss))
    ∧ ((getExitPoints cfg e "BUY" none).2 = e * (1 + cfg.defaultTakeProfit))
    ∧ ((getExitPoints cfg e "BUY" (some 0)).2 = e * (1 + cfg.defaultTakeProfit))
    ∧ ((getExitPoints cfg e "BUY" (some g)).2 = e * (1 + min (max (g / 100) (2/100)) (15/100)))
    ∧ ((getExitPoints cfg e side (some g)).2 = e * (1 - min (max (g / 100) (2/100)) (15/100)))
    ∧ getExitPoints defaultConfig 100 "BUY" none = (98, 104)
    ∧ getExitPoints defaultConfig 100 "BUY" (some 10) = (98, 110) := by
  refine ⟨?_, ?_, ?_, ?_, ?_, ?_, ?_, ?_⟩
  · simp [getExitPoints]
  · simp [getExitPoints, hside]
  · simp [getExitPoints]
  · simp [getExitPoints]
  · simp [getExitPoints, hg]
  · simp [getExitPoints, hside, hg]
  · norm_num [getExitPoints, defaultConfig]
  · norm_num [getExitPoints, defaultConfig]

theorem C4_witness :
    ((getExitPoints defaultConfig 100 "SELL" (some 10)).1
      = 100 * (1 + defaultConfig.defaultStopLoss))
    ∧ ((getExitPoints defaultConfig 100 "BUY" (some 10)).2
        = 100 * (1 + min (max ((10 : ℚ) / 100) (2/100)) (15/100)))
    ∧ getExitPoints defaultConfig 100 "BUY" (some 10) = (98, 110) := by
  have h := C4_exit_points defaultConfig 100 "SELL" (some 10) 10 (by simp) (by norm_num)
  exact ⟨h.2.1, h.2.2.2.2.1, h.2.2.2.2.2.2.2⟩

/-- C6 counterexample: the claim says the stop is replaced when the
price has risen at least 2% above it, but the code requires strictly
more than 2% (`currentPrice > stopPrice * 1.02`): with a stop at 100 and
the price exactly at 102 (= 100 × 1.02, a rise of exactly 2%), the
trailing-stop pass replaces nothing. -/
theorem C6_counterexample :
    (102 : ℚ) = 100 * (102/100)
    ∧ manageTrailingStops [⟨"BTCUSDT", OrderKind.stopLoss, 100, 0, 1⟩] (fun _ => 102) = [] := by
  constructor
  · norm_num
  · norm_num [manageTrailingStops, trailOrder, isStopOrder, List.filter, List.filterMap]

/-- C6 (amended): in the trailing-stop pass each protective stop order
is considered independently; its pair is replaced if and only if the
current price is strictly more than 2% above the stop price; the
replacement stop is the old stop × 1.01 — strictly higher for positive
stops, so the ratchet never lowers a stop — and the replacement keeps
the position's take-profit level (the price of the symbol's open
LIMIT_MAKER order) whenever such an order is present with a nonzero
price. -/
theorem C6_trailing_ratchet (orders : List ExchangeOrder) (price : String → ℚ)
    (o tp : ExchangeOrder) (r : ProtectivePair)
    (ho : o ∈ orders) (hstop : isStopOrder o = true) :
    ((trailOrder orders price o).isSome = true ↔ o.stopPrice * (102/100) < price o.symbol)
    ∧ (trailOrder orders price o = some r → r.stopPrice = o.stopPrice * (101/100))
    ∧ (trailOrder orders price o = some r → 0 < o.stopPrice → o.stopPrice < r.stopPrice)
    ∧ (trailOrder orders price o = some r →
        List.find? (fun x => x.symbol == o.symbol && x.kind == OrderKind.limitMaker) orders
          = some tp →
        tp.price ≠ 0 → r.takeProfit = tp.price)
    ∧ (trailOrder orders price o = some r → r ∈ manageTrailingStops orders price) := by
  refine ⟨?_, ?_, ?_, ?_, ?_⟩
  · simp only [trailOrder]
    split_ifs with h <;> simp [h]
  · intro hr
    simp only [trailOrder] at hr
    split_ifs at hr with h
    obtain rfl : (⟨o.symbol, o.origQty, tpLookup orders o.symbol (price o.symbol),
        o.stopPrice * (101/100)⟩ : ProtectivePair) = r := by simpa using hr
    rfl
  · intro hr hpos
    simp only [trailOrder] at hr
    split_ifs at hr with h
    obtain rfl : (⟨o.symbol, o.origQty, tpLookup orders o.symbol (price o.symbol),
        o.stopPrice * (101/100)⟩ : ProtectivePair) = r := by simpa using hr
    show o.stopPrice < o.stopPrice * (101/100)
    linarith
  · intro hr hfind hne
    simp only [trailOrder] at hr
    split_ifs at hr with h
    obtain rfl : (⟨o.symbol, o.origQty, tpLookup orders o.symbol (price o.symbol),
        o.stopPrice * (101/100)⟩ : ProtectivePair) = r := by simpa using hr
    show tpLookup orders o.symbol (price o.symbol) = tp.price
    unfold tpLookup
    rw [hfind]
    simp [hne]
  · intro hr
    unfold manageTrailingStops
    exact List.mem_filterMap.mpr ⟨o, List.mem_filter.mpr ⟨ho, hstop⟩, hr⟩

theorem C6_witness :
    (⟨"BTCUSDT", 1, 110, 100 * (101/100)⟩ : ProtectivePair) ∈
      manageTrailingStops
        [⟨"BTCUSDT", OrderKind.stopLoss, 100, 0, 1⟩,
          ⟨"BTCUSDT", OrderKind.limitMaker, 0, 110, 1⟩] (fun _ => 103)
    ∧ (100 : ℚ) < 100 * (101/100) := by
  have hr : trailOrder
      [⟨"BTCUSDT", OrderKind.stopLoss, 100, 0, 1⟩,
        ⟨"BTCUSDT", OrderKind.limitMaker, 0, 110, 1⟩] (fun _ => 103)
      (⟨"BTCUSDT", OrderKind.stopLoss, 100, 0, 1⟩ : ExchangeOrder)
      = some ⟨"BTCUSDT", 1, 110, 100 * (101/100)⟩ := by
    have hbeq : decide (OrderKind.stopLoss = OrderKind.limitMaker) = false := rfl
    norm_num [trailOrder, tpLookup, List.find?, instBEqOfDecidableEq, hbeq]
  have h := C6_trailing_ratchet
    [⟨"BTCUSDT", OrderKind.stopLoss, 100, 0, 1⟩, ⟨"BTCUSDT", OrderKind.limitMaker, 0, 110, 1⟩]
    (fun _ => 103) ⟨"BTCUSDT", OrderKind.stopLoss, 100, 0, 1⟩
    ⟨"BTCUSDT", OrderKind.limitMaker, 0, 110, 1⟩ ⟨"BTCUSDT", 1, 110, 100 * (101/100)⟩
    (by simp) (by simp [isStopOrder])
  exact ⟨h.2.2.2.2 hr, h.2.2.1 hr (by norm_num)⟩

theorem scanPairNews_isSome_iff (l : List (Option Analysis)) :
    (scanPairNews l).isSome = true
      ↔ ∃ x ∈ l, ∃ a, x = some a ∧ isExecutableSignal a = true := by
  induction l with
  | nil => simp [scanPairNews]
  | cons x rest ih =>
    cases x with
    | none => simp [scanPairNews, ih]
    | some a =>
      by_cases ha : isExecutableSignal a = true
      · simp [scanPairNews, ha]
      · simp [scanPairNews, ha, ih]

theorem scanPairNews_some_exec (l : List (Option Analysis)) (b : Analysis)
    (h : scanPairNews l = some b) : isExecutableSignal b = true := by
  induction l with
  | nil => simp [scanPairNews] at h
  | cons x rest ih =>
    cases x with
    | none => exact ih (by simpa [scanPairNews] using h)
    | some a =>
      by_cases ha : isExecutableSignal a = true
      · rw [scanPairNews, if_pos ha] at h
        obtain rfl : a = b := by simpa using h
        exact ha
      · exact ih (by rwa [scanPairNews, if_neg ha] at h)

theorem scanPairNews_append_fail (pre rest : List (Option Analysis))
    (hpre : ∀ x ∈ pre, ∀ a : Analysis, x = some a → isExecutableSignal a = false) :
    scanPairNews (pre ++ rest) = scanPairNews rest := by
  induction pre with
  | nil => rfl
  | cons x pre ih =>
    have htail : ∀ y ∈ pre, ∀ a : Analysis, y = some a → isExecutableSignal a = false :=
      fun y hy a hya => hpre y (List.mem_cons_of_mem x hy) a hya
    cases x with
    | none =>
      rw [List.cons_append, scanPairNews]
      exact ih htail
    | some a =>
      have ha : isExecutableSignal a = false := hpre (some a) (List.mem_cons_self _ _) a rfl
      rw [List.cons_append, scanPairNews, if_neg (by simp [ha])]
      exact ih htail

/-- C7: in one scan cycle a satellite trade is initiated for a pair only
on a news analysis that is simultaneously BULLISH, suggested action BUY,
and confidence above the high-confidence execution threshold (80); the
news loop settles on the first such verdict and ignores everything after
it (so at most one trade decision per pair per cycle), and when every
analysis of the pair's news fails the conjunction no execution is
initiated. -/
theorem C7_single_trade_decision (cfg : Config) (rsi1h rsi4h : ℚ) (candles : List Candle)
    (analyses pre post : List (Option Analysis)) (a b : Analysis) :
    ((scanPairNews analyses).isSome = true
      ↔ ∃ x ∈ analyses, ∃ c, x = some c ∧ isExecutableSignal c = true)
    ∧ (scanPairNews analyses = some b → isExecutableSignal b = true)
    ∧ ((processPair cfg rsi1h rsi4h candles analyses).2 = some b → isExecutableSignal b = true)
    ∧ ((∀ x ∈ pre, ∀ c : Analysis, x = some c → isExecutableSignal c = false) →
        isExecutableSignal a = true →
        scanPairNews (pre ++ some a :: post) = some a)
    ∧ ((∀ x ∈ analyses, ∀ c : Analysis, x = some c → isExecutableSignal c = false) →
        scanPairNews analyses = none) := by
  refine ⟨scanPairNews_isSome_iff analyses, scanPairNews_some_exec analyses b, ?_, ?_, ?_⟩
  · intro h
    unfold processPair at h
    split_ifs at h with hg
    exact scanPairNews_some_exec analyses b h
  · intro hpre ha
    rw [scanPairNews_append_fail pre (some a :: post) hpre, scanPairNews, if_pos ha]
  · intro hfail
    cases hs : scanPairNews analyses with
    | none => rfl
    | some c =>
      exfalso
      have hsome : (scanPairNews analyses).isSome = true := by simp [hs]
      obtain ⟨x, hx, cc, hxc, hexec⟩ := (scanPairNews_isSome_iff analyses).mp hsome
      rw [hfail x hx cc hxc] at hexec
      exact Bool.false_ne_true hexec

theorem C7_witness :
    scanPairNews [none, some ⟨"NEUTRAL", "FOLD", 50, none⟩, some ⟨"BULLISH", "BUY", 90, some 5⟩]
        = some ⟨"BULLISH", "BUY", 90, some 5⟩
    ∧ scanPairNews [some ⟨"NEUTRAL", "FOLD", 50, none⟩] = none := by
  constructor
  · refine (C7_single_trade_decision defaultConfig 0 0 [] [] [none, some ⟨"NEUTRAL", "FOLD", 50, none⟩]
      [] ⟨"BULLISH", "BUY", 90, some 5⟩ ⟨"BULLISH", "BUY", 90, some 5⟩).2.2.2.1 ?_ ?_
    · intro x hx c hxc
      subst hxc
      simp at hx
      obtain rfl : c = ⟨"NEUTRAL", "FOLD", 50, none⟩ := by simpa using hx
      simp [isExecutableSignal]
    · norm_num [isExecutableSignal]
  · refine (C7_single_trade_decision defaultConfig 0 0 [] [] [some ⟨"NEUTRAL", "FOLD", 50, none⟩]
      [] ⟨"BULLISH", "BUY", 90, some 5⟩ ⟨"BULLISH", "BUY", 90, some 5⟩).2.2.2.2 ?_
    intro x hx c hxc
    subst hxc
    obtain rfl : c = ⟨"NEUTRAL", "FOLD", 50, none⟩ := by simpa using hx
    simp [isExecutableSignal]

/-- C8: per pair, the sentiment gate (news fetch and analysis) is
invoked exactly when the technical pre-screen passes: the 4h RSI does
not exceed the overbought veto threshold 65, the volatility ratio of the
last three 1h candles does not exceed the 5% safety ceiling, and the 1h
RSI is below the oversold threshold or strictly inside the momentum band
(45, 60); the volatility veto blocks the pair regardless of the
oscillator signals. -/
theorem C8_technical_prescreen (cfg : Config) (rsi1h rsi4h : ℚ) (candles : List Candle)
    (analyses : List (Option Analysis)) :
    (technicalGate cfg rsi1h rsi4h candles = true ↔
      (rsi4h ≤ 65 ∧ volatility3 candles ≤ 5/100
        ∧ (rsi1h < cfg.rsiOversold ∨ (45 < rsi1h ∧ rsi1h < 60))))
    ∧ (5/100 < volatility3 candles → technicalGate cfg rsi1h rsi4h candles = false)
    ∧ ((processPair cfg rsi1h rsi4h candles analyses).1 = technicalGate cfg rsi1h rsi4h candles)
    ∧ (technicalGate cfg rsi1h rsi4h candles = false →
        processPair cfg rsi1h rsi4h candles analyses = (false, none)) := by
  refine ⟨?_, ?_, ?_, ?_⟩
  · unfold technicalGate
    split_ifs with h4 hv
    · simp [show ¬ rsi4h ≤ 65 from not_le.mpr h4]
    · simp [show ¬ volatility3 candles ≤ 5/100 from not_le.mpr hv]
    · simp [not_lt.mp h4, not_lt.mp hv]
  · intro hv
    unfold technicalGate
    split_ifs with h4 hv2
    · rfl
    · rfl
  · cases hg : technicalGate cfg rsi1h rsi4h candles <;> simp [processPair, hg]
  · intro hg
    simp [processPair, hg]

theorem C8_witness :
    technicalGate defaultConfig 25 50 [⟨101, 100, 100⟩] = true
    ∧ technicalGate defaultConfig 25 50 [⟨110, 100, 105⟩] = false
    ∧ (processPair defaultConfig 25 50 [⟨110, 100, 105⟩] []).1
        = technicalGate defaultConfig 25 50 [⟨110, 100, 105⟩] := by
  refine ⟨(C8_technical_prescreen defaultConfig 25 50 [⟨101, 100, 100⟩] []).1.mpr
      ⟨by norm_num, ?_, Or.inl (by norm_num [defaultConfig])⟩,
    (C8_technical_prescreen defaultConfig 25 50 [⟨110, 100, 105⟩] []).2.1 ?_,
    (C8_technical_prescreen defaultConfig 25 50 [⟨110, 100, 105⟩] []).2.2.1⟩
  · norm_num [volatility3, lastThree, maxHigh, minLow]
  · norm_num [volatility3, lastThree, maxHigh, minLow]
